import Mathlib

/-!
Shallow embedding of `src/main.py` (authz-examples): a document service with
five selectable authorization models (acl, rbac, abac, rebac, pbac).
Python dicts become association lists; `dict.get(k, d)` becomes `dGetD`;
`dict.get(k)` becomes `dLookup`.  Integer ids are `Int`, actions and model
selectors are `String`.  The ABAC/ReBAC/PBAC evaluators, left as `pass`
stubs in the source, are modelled from the spec where a claim needs them.
-/

/-- Python `dict.get(key)`: `some` of the first binding for `key`, else `none`. -/
def dLookup {α β : Type} [DecidableEq α] : List (α × β) → α → Option β
  | [], _ => none
  | (k, v) :: rest, key => if key = k then some v else dLookup rest key

/-- Python `dict.get(key, default)`. -/
def dGetD {α β : Type} [DecidableEq α] (m : List (α × β)) (key : α) (dflt : β) : β :=
  (dLookup m key).getD dflt

/-- A record of the `USERS` table: name, dept, title, role. -/
structure UserRec where
  name : String
  dept : String
  title : String
  role : String
deriving DecidableEq, Repr

/-- A record of the `DOCUMENTS` table: title, author_id, collaborator_ids, content. -/
structure DocRec where
  title : String
  author_id : Int
  collaborator_ids : List Int
  content : String
deriving DecidableEq, Repr

/-- The module-level tables of `src/main.py`, gathered into one catalog value
(the Python globals `USERS`, `DOCUMENTS`, `ACLs`, `ROLES`, `USER_ROLES`,
`ROLE_PERMISSIONS`). -/
structure Catalog where
  users : List (Int × UserRec)
  documents : List (Int × DocRec)
  acls : List (Int × List (Int × List String))
  roles : List (Int × String)
  userRoles : List (Int × List Int)
  rolePermissions : List (String × List (Int × List String))
deriving DecidableEq

/-- The five recognized model selectors, `AUTHZ_METHODS` in the source. -/
def AUTHZ_METHODS : List String := ["acl", "rbac", "abac", "rebac", "pbac"]

/-- The fixture catalog, literal data from `src/main.py`. -/
def fixtureCatalog : Catalog where
  users :=
    [ (1, ⟨"Avery Chen", "Engineering", "senior engineer", "admin"⟩),
      (2, ⟨"Jordan Malik", "Marketing", "marketing manager", "editor"⟩),
      (3, ⟨"Riley Nguyen", "Sales", "sales associate", "viewer"⟩),
      (4, ⟨"Morgan Patel", "HR", "HR specialist", "editor"⟩),
      (5, ⟨"Taylor Brooks", "engineering", "intern", "viewer"⟩) ]
  documents :=
    [ (1, ⟨"How to Behave Like an Adult at Work", 4, [],
        "Be kind to others. Respect their time and opinions. Communicate clearly. Stay organized. Take responsibility for your actions."⟩),
      (2, ⟨"Top Secret Next Generation AI Application", 1, [5],
        "This is a super neat idea for an AI application that will change the world. It involves advanced machine learning techniques and cutting-edge algorithms. The details are classified. Handle with care. My plan is to have a soda machine that prompts the user with 20 yes/no questions and then dispenses a soda based on the answers."⟩),
      (3, ⟨"What I Did This Summer at Cola Co", 5, [1, 2, 4],
        "Hi, my name is Taylor. This Summer, I worked at Cola Co as an engineering intern. I learned a lot about the beverage industry and got to work on some cool projects. I also made some great friends and had a lot of fun."⟩) ]
  acls :=
    [ (1, [(1, ["read", "write"]), (2, ["read"])]),
      (2, [(2, ["read", "write"]), (3, ["read"])]),
      (3, [(1, ["read"]), (3, ["read", "write"])]) ]
  roles := [(1, "admin"), (2, "editor"), (3, "viewer")]
  userRoles := [(1, [1]), (2, [2]), (3, [3])]
  rolePermissions :=
    [ ("admin", [(1, ["read", "write"]), (2, ["read", "write"]), (3, ["read", "write"])]),
      ("editor", [(1, ["read", "write"]), (2, ["read", "write"]), (3, ["read"])]),
      ("viewer", [(1, ["read"]), (2, ["read"]), (3, ["read"])]) ]

/-- `check_acl` from the source:
`user_acls = ACLs.get(user_id, {}); document_permissions = user_acls.get(document_id, []);
return action in document_permissions`. -/
def check_acl (cat : Catalog) (user_id document_id : Int) (action : String) : Bool :=
  let user_acls := dGetD cat.acls user_id []
  let document_permissions := dGetD user_acls document_id []
  decide (action ∈ document_permissions)

/-- The `for role_id in roles` loop body of `check_rbac`: look the role name up
in `ROLES`, skip falsy names (Python truthiness of `if role_name:`), return
`True` on the first role whose permissions for the document list the action. -/
def rbacLoop (R : List (Int × String)) (P : List (String × List (Int × List String)))
    (document_id : Int) (action : String) : List Int → Bool
  | [] => false
  | role_id :: rest =>
    match dLookup R role_id with
    | some role_name =>
      if role_name ≠ "" then
        if decide (action ∈ dGetD (dGetD P role_name []) document_id []) then true
        else rbacLoop R P document_id action rest
      else rbacLoop R P document_id action rest
    | none => rbacLoop R P document_id action rest

/-- `check_rbac` from the source: `roles = USER_ROLES.get(user_id, [])`, then
the loop over the subject's roles, returning `False` when no role grants. -/
def check_rbac (cat : Catalog) (user_id document_id : Int) (action : String) : Bool :=
  rbacLoop cat.roles cat.rolePermissions document_id action (dGetD cat.userRoles user_id [])

/-- Python `str.split(" ")` over the character list: split at every single
space character, keeping empty tokens (so `"".split(" ") = [""]`). -/
def pySplitSpace : List Char → List (List Char)
  | [] => [[]]
  | c :: rest =>
    match pySplitSpace rest with
    | [] => [[]]
    | t :: ts => if c = ' ' then [] :: t :: ts else (c :: t) :: ts

/-- An ASCII decimal digit. -/
def isDigitChar (c : Char) : Bool := decide ('0' ≤ c ∧ c ≤ '9')

/-- The value of a digit string, most significant first, over an accumulator. -/
def digitsVal : List Char → Nat → Nat
  | [], acc => acc
  | c :: rest, acc => digitsVal rest (acc * 10 + (c.toNat - '0'.toNat))

/-- A nonempty all-digit character list as a number, else `none`. -/
def parseDigits (l : List Char) : Option Nat :=
  if l ≠ [] ∧ l.all isDigitChar then some (digitsVal l 0) else none

/-- Python `int(token)` on a token produced by `str.split(" ")` (no inner
whitespace): optional sign followed by ASCII digits; `none` where `int`
raises `ValueError`. -/
def pyInt : List Char → Option Int
  | '-' :: rest => (parseDigits rest).map (fun n => -(n : Int))
  | '+' :: rest => (parseDigits rest).map (fun n => (n : Int))
  | l => (parseDigits l).map (fun n => (n : Int))

/-- The credential parse every endpoint performs:
`user_id = int(authorization.split(" ")[1])`.  `none` where the Python raises
(IndexError: no second token; ValueError: second token not an integer). -/
def parse_user_id (authorization : String) : Option Int :=
  match (pySplitSpace authorization.toList).get? 1 with
  | none => none
  | some tok => pyInt tok

/-- The shapes a handler evaluation can take: the error dicts, a success
message, a returned document, a bare error dict, the `None` a stub evaluator
returns, or an unhandled Python exception. -/
inductive ApiResponse where
  | error (msg suggestion : String)
  | message (msg : String)
  | document (d : DocRec)
  | errorMsg (msg : String)
  | noneValue
  | crash
deriving DecidableEq, Repr

/-- `fetch_document_using_acls`: serve `DOCUMENTS.get(id, error)` when
`check_acl(user, id, "read")`, else the access-denied dict. -/
def fetch_document_using_acls (cat : Catalog) (user_id document_id : Int) : ApiResponse :=
  if check_acl cat user_id document_id "read" then
    match dLookup cat.documents document_id with
    | some d => ApiResponse.document d
    | none => ApiResponse.errorMsg "Document not found"
  else ApiResponse.errorMsg "Access denied"

/-- `fetch_document_using_rbac`: as the ACL fetch, gated by `check_rbac`. -/
def fetch_document_using_rbac (cat : Catalog) (user_id document_id : Int) : ApiResponse :=
  if check_rbac cat user_id document_id "read" then
    match dLookup cat.documents document_id with
    | some d => ApiResponse.document d
    | none => ApiResponse.errorMsg "Document not found"
  else ApiResponse.errorMsg "Access denied"

/-- The suggestion string each endpoint builds:
`"Choose from: " + ", ".join(AUTHZ_METHODS)`. -/
def methodSuggestion : String :=
  "Choose from: " ++ String.intercalate ", " AUTHZ_METHODS

/-- `create_document` (POST /documents): validate the model selector, require
the Authorization header, parse the user id (unguarded in the source: a parse
failure is a crash), then return a per-model success message without any
authorization check. -/
def create_document (cat : Catalog) (id : Int) (authz_method : String)
    (authorization : Option String) : ApiResponse :=
  if authz_method ∈ AUTHZ_METHODS then
    match authorization with
    | none => ApiResponse.error "Authorization header missing" "Provide a valid authorization token"
    | some auth =>
      match parse_user_id auth with
      | none => ApiResponse.crash
      | some _user_id =>
        match authz_method with
        | "acl" => ApiResponse.message "Document created using ACLs"
        | "rbac" => ApiResponse.message "Document created using RBAC"
        | "abac" => ApiResponse.message "Document created using ABAC"
        | "rebac" => ApiResponse.message "Document created using ReBAC"
        | "pbac" => ApiResponse.message "Document created using PBAC"
        | _ => ApiResponse.error "Invalid authorization method" methodSuggestion
  else ApiResponse.error "Invalid authorization method" methodSuggestion

/-- `read_document` (GET /documents/(id)): same guards, then dispatch to the
per-model fetch; the abac/rebac/pbac fetchers are `pass` stubs returning
`None` in the source. -/
def read_document (cat : Catalog) (id : Int) (authz_method : String)
    (authorization : Option String) : ApiResponse :=
  if authz_method ∈ AUTHZ_METHODS then
    match authorization with
    | none => ApiResponse.error "Authorization header missing" "Provide a valid authorization token"
    | some auth =>
      match parse_user_id auth with
      | none => ApiResponse.crash
      | some user_id =>
        match authz_method with
        | "acl" => fetch_document_using_acls cat user_id id
        | "rbac" => fetch_document_using_rbac cat user_id id
        | "abac" => ApiResponse.noneValue
        | "rebac" => ApiResponse.noneValue
        | "pbac" => ApiResponse.noneValue
        | _ => ApiResponse.error "Invalid authorization method" methodSuggestion
  else ApiResponse.error "Invalid authorization method" methodSuggestion

/-- `update_document` (PATCH /documents/(id)): guards, unguarded parse, then a
per-model success message without any authorization check. -/
def update_document (cat : Catalog) (id : Int) (authz_method : String)
    (authorization : Option String) : ApiResponse :=
  if authz_method ∈ AUTHZ_METHODS then
    match authorization with
    | none => ApiResponse.error "Authorization header missing" "Provide a valid authorization token"
    | some auth =>
      match parse_user_id auth with
      | none => ApiResponse.crash
      | some _user_id =>
        match authz_method with
        | "acl" => ApiResponse.message "Document updated using ACLs"
        | "rbac" => ApiResponse.message "Document updated using RBAC"
        | "abac" => ApiResponse.message "Document updated using ABAC"
        | "rebac" => ApiResponse.message "Document updated using ReBAC"
        | "pbac" => ApiResponse.message "Document updated using PBAC"
        | _ => ApiResponse.error "Invalid authorization method" methodSuggestion
  else ApiResponse.error "Invalid authorization method" methodSuggestion

/-- `delete_document` (DELETE /documents/(id)): guards, unguarded parse, then
a per-model success message without any authorization check. -/
def delete_document (cat : Catalog) (id : Int) (authz_method : String)
    (authorization : Option String) : ApiResponse :=
  if authz_method ∈ AUTHZ_METHODS then
    match authorization with
    | none => ApiResponse.error "Authorization header missing" "Provide a valid authorization token"
    | some auth =>
      match parse_user_id auth with
      | none => ApiResponse.crash
      | some _user_id =>
        match authz_method with
        | "acl" => ApiResponse.message "Document deleted using ACLs"
        | "rbac" => ApiResponse.message "Document deleted using RBAC"
        | "abac" => ApiResponse.message "Document deleted using ABAC"
        | "rebac" => ApiResponse.message "Document deleted using ReBAC"
        | "pbac" => ApiResponse.message "Document deleted using PBAC"
        | _ => ApiResponse.error "Invalid authorization method" methodSuggestion
  else ApiResponse.error "Invalid authorization method" methodSuggestion

/-- Modelled from the spec: the structured attribute predicates of ABAC and of
PBAC rule conditions (the source's `fetch_document_using_abac` and
`fetch_document_using_pbac` are `pass` stubs) — boolean conditions over
subject attributes, object attributes, the action, and the environment
context, with equality, inequality, conjunction and disjunction. -/
inductive AttrCond where
  | subjAttrEq (attr val : String)
  | subjAttrNe (attr val : String)
  | objAttrEq (attr val : String)
  | envAttrEq (attr val : String)
  | actionEq (val : String)
  | orC (c1 c2 : AttrCond)
  | andC (c1 c2 : AttrCond)
deriving DecidableEq, Repr

/-- A subject attribute by name from the catalog; `none` for an unknown
subject or attribute (the spec: missing attributes never error). -/
def subjAttr (cat : Catalog) (user_id : Int) (attr : String) : Option String :=
  match dLookup cat.users user_id with
  | none => none
  | some u =>
    match attr with
    | "name" => some u.name
    | "dept" => some u.dept
    | "title" => some u.title
    | "role" => some u.role
    | _ => none

/-- An object attribute by name; `none` for an unknown document or attribute. -/
def objAttr (cat : Catalog) (document_id : Int) (attr : String) : Option String :=
  match dLookup cat.documents document_id with
  | none => none
  | some d =>
    match attr with
    | "title" => some d.title
    | "content" => some d.content
    | _ => none

/-- Modelled from the spec: evaluate one attribute predicate; a missing
attribute makes the predicate non-matching, never an error. -/
def evalCond (cat : Catalog) (user_id document_id : Int) (action : String)
    (env : List (String × String)) : AttrCond → Bool
  | AttrCond.subjAttrEq attr v =>
    match subjAttr cat user_id attr with
    | some s => decide (s = v)
    | none => false
  | AttrCond.subjAttrNe attr v =>
    match subjAttr cat user_id attr with
    | some s => decide (s ≠ v)
    | none => false
  | AttrCond.objAttrEq attr v =>
    match objAttr cat document_id attr with
    | some s => decide (s = v)
    | none => false
  | AttrCond.envAttrEq attr v =>
    match dLookup env attr with
    | some s => decide (s = v)
    | none => false
  | AttrCond.actionEq v => decide (action = v)
  | AttrCond.orC c1 c2 =>
    evalCond cat user_id document_id action env c1 || evalCond cat user_id document_id action env c2
  | AttrCond.andC c1 c2 =>
    evalCond cat user_id document_id action env c1 && evalCond cat user_id document_id action env c2

/-- Modelled from the spec: the ABAC evaluator (a `pass` stub in the source) —
allow iff ANY of the configured attribute predicates matches. -/
def check_abac (cat : Catalog) (preds : List AttrCond) (user_id document_id : Int)
    (action : String) (env : List (String × String)) : Bool :=
  preds.any (evalCond cat user_id document_id action env)

/-- Modelled from the spec: the direct relationship edges between a subject
and a document — `author` when the subject authored it, `collaborator` when
the subject is listed as a collaborator; no edge for an unknown document. -/
def relationshipKinds (cat : Catalog) (user_id document_id : Int) : List String :=
  match dLookup cat.documents document_id with
  | none => []
  | some d =>
    (if d.author_id = user_id then ["author"] else []) ++
      (if user_id ∈ d.collaborator_ids then ["collaborator"] else [])

/-- Modelled from the spec: the fixed relationship-kind to allowed-actions
table; absence of an edge maps to the empty action set. -/
def relKindActions : String → List String
  | "author" => ["read", "write"]
  | "collaborator" => ["read", "write"]
  | _ => []

/-- Modelled from the spec: the ReBAC evaluator (a `pass` stub in the source)
— allow iff the action is in the union of the action sets of the subject's
relationship kinds to the object. -/
def check_rebac (cat : Catalog) (user_id document_id : Int) (action : String) : Bool :=
  (relationshipKinds cat user_id document_id).any
    (fun k => decide (action ∈ relKindActions k))

/-- Modelled from the spec: a PBAC policy rule effect. -/
inductive Effect where
  | allow
  | deny
deriving DecidableEq, Repr

/-- Modelled from the spec: a PBAC policy rule — priority, effect, condition. -/
structure PolicyRule where
  priority : Nat
  effect : Effect
  cond : AttrCond
deriving DecidableEq, Repr

/-- Modelled from the spec: the PBAC evaluator (a `pass` stub in the source) —
rules arrive as the ordered sequence `getRules` returns (ascending priority);
the first rule whose condition matches decides via its effect, and no match
is a deny (fail-closed). -/
def check_pbac (cat : Catalog) (rules : List PolicyRule) (user_id document_id : Int)
    (action : String) (env : List (String × String)) : Bool :=
  match rules.find? (fun r => evalCond cat user_id document_id action env r.cond) with
  | some r => decide (r.effect = Effect.allow)
  | none => false

/-- A normalized engine decision, from the spec: allowed flag, informational
reason, and the model that produced it. -/
structure Decision where
  allowed : Bool
  reason : String
  model : String
deriving DecidableEq, Repr

/-- The five recognized models as a closed selector type. -/
inductive Model where
  | acl
  | rbac
  | abac
  | rebac
  | pbac
deriving DecidableEq, Repr

/-- The selector string of a model. -/
def Model.name : Model → String
  | Model.acl => "acl"
  | Model.rbac => "rbac"
  | Model.abac => "abac"
  | Model.rebac => "rebac"
  | Model.pbac => "pbac"

/-- Modelled from the spec: the Decision Engine dispatcher — route a resolved
request to the selected evaluator (ACL and RBAC translated from the source,
ABAC/ReBAC/PBAC modelled from the spec) and normalize the outcome into a
`Decision`, populating the reason on denial. -/
def Engine.decide (cat : Catalog) (preds : List AttrCond) (rules : List PolicyRule)
    (m : Model) (user_id document_id : Int) (action : String)
    (env : List (String × String)) : Decision :=
  match m with
  | Model.acl =>
    if check_acl cat user_id document_id action then ⟨true, "", "acl"⟩
    else ⟨false, "no grant", "acl"⟩
  | Model.rbac =>
    if check_rbac cat user_id document_id action then ⟨true, "", "rbac"⟩
    else ⟨false, "no matching role", "rbac"⟩
  | Model.abac =>
    if check_abac cat preds user_id document_id action env then ⟨true, "", "abac"⟩
    else ⟨false, "no predicate matched", "abac"⟩
  | Model.rebac =>
    if check_rebac cat user_id document_id action then ⟨true, "", "rebac"⟩
    else ⟨false, "no relationship found", "rebac"⟩
  | Model.pbac =>
    if check_pbac cat rules user_id document_id action env then ⟨true, "", "pbac"⟩
    else ⟨false, "no rule matched", "pbac"⟩

/-- The fixture catalog with user 3 additionally assigned role 1 (admin);
every other table unchanged.  Used to exercise role-set extension and
ACL-isolation statements. -/
def fixtureCatalogExtraRole : Catalog :=
  { fixtureCatalog with userRoles := [(1, [1]), (2, [2]), (3, [3, 1])] }

/-! Helper lemmas shared by the claim theorems. -/

/-- `rbacLoop` is the big OR of the per-role checks: it returns `true` iff
some role id in the list resolves to a truthy role name whose permission
table lists the action for the document. -/
theorem rbacLoop_eq_true_iff (R : List (Int × String))
    (P : List (String × List (Int × List String))) (o : Int) (a : String)
    (l : List Int) :
    rbacLoop R P o a l = true ↔
      ∃ rid ∈ l, ∃ name, dLookup R rid = some name ∧ name ≠ "" ∧
        a ∈ dGetD (dGetD P name []) o [] := by
  induction l with
  | nil => simp [rbacLoop]
  | cons rid rest ih =>
    simp only [rbacLoop]
    cases h1 : dLookup R rid with
    | none => simp [h1, ih, List.mem_cons, or_and_right, exists_or]
    | some name =>
      by_cases h2 : name = ""
      · subst h2
        simp [h1, ih, List.mem_cons, or_and_right, exists_or]
      · by_cases h3 : a ∈ dGetD (dGetD P name []) o []
        · simp [h1, h2, h3, List.mem_cons, or_and_right, exists_or]
        · simp [h1, h2, h3, ih, List.mem_cons, or_and_right, exists_or]

/-- Appending role ids on the right preserves a `true` result of `rbacLoop`. -/
theorem rbacLoop_append_true (R : List (Int × String))
    (P : List (String × List (Int × List String))) (o : Int) (a : String)
    (l l' : List Int) (h : rbacLoop R P o a l = true) :
    rbacLoop R P o a (l ++ l') = true := by
  induction l with
  | nil => simp [rbacLoop] at h
  | cons rid rest ih =>
    simp only [List.cons_append, rbacLoop] at h ⊢
    cases h1 : dLookup R rid with
    | none =>
      rw [h1] at h
      exact ih h
    | some name =>
      rw [h1] at h
      by_cases h2 : name = ""
      · simp [h2] at h ⊢
        exact ih h
      · by_cases h3 : a ∈ dGetD (dGetD P name []) o []
        · simp [h2, h3]
        · simp [h2, h3] at h ⊢
          exact ih h

/-! The claim theorems. -/

/-- Claim C1: `check_acl S O a` returns true iff `a` is a member of the
granted action set recorded for exactly the pair `(S, O)` in the ACL table
(absence of a grant yields false), and the result depends only on the ACL
table — no role or relationship data influences it (model isolation). -/
theorem acl_check_characterization (cat cat' : Catalog) (s o : Int) (a : String)
    (h : cat.acls = cat'.acls) :
    (check_acl cat s o a = true ↔
      ∃ ua perms, dLookup cat.acls s = some ua ∧ dLookup ua o = some perms ∧
        a ∈ perms) ∧
    check_acl cat s o a = check_acl cat' s o a := by
  constructor
  · unfold check_acl dGetD
    cases h1 : dLookup cat.acls s with
    | none => simp [h1, dLookup]
    | some ua =>
      cases h2 : dLookup ua o with
      | none => simp [h1, h2]
      | some perms => simp [h1, h2]
  · unfold check_acl
    rw [h]

theorem acl_check_characterization_witness :
    fixtureCatalog.acls = fixtureCatalogExtraRole.acls ∧
    ((check_acl fixtureCatalog 1 2 "write" = true ↔
        ∃ ua perms, dLookup fixtureCatalog.acls 1 = some ua ∧
          dLookup ua 2 = some perms ∧ "write" ∈ perms) ∧
      check_acl fixtureCatalog 1 2 "write" =
        check_acl fixtureCatalogExtraRole 1 2 "write") :=
  ⟨rfl, acl_check_characterization fixtureCatalog fixtureCatalogExtraRole 1 2 "write" rfl⟩

/-- Claim C2: `check_rbac S O a` returns true iff at least one role assigned
to `S` grants `a` on `O` (logical OR across the subject's roles); with zero
roles, or no role granting, the existential is empty and the result is false. -/
theorem rbac_check_characterization (cat : Catalog) (s o : Int) (a : String) :
    check_rbac cat s o a = true ↔
      ∃ rid ∈ dGetD cat.userRoles s [], ∃ name,
        dLookup cat.roles rid = some name ∧ name ≠ "" ∧
          a ∈ dGetD (dGetD cat.rolePermissions name []) o [] :=
  rbacLoop_eq_true_iff cat.roles cat.rolePermissions o a (dGetD cat.userRoles s [])

/-- Claim C3: fail-closed — with zero ACL grants for the pair, zero roles,
zero relationship edges, no matching ABAC predicate and no matching PBAC
rule, every one of the five evaluators denies; unknown subject or object ids
fall into exactly this case via the empty lookup defaults. -/
theorem fail_closed_all_models (cat : Catalog) (preds : List AttrCond)
    (rules : List PolicyRule) (s o : Int) (a : String)
    (env : List (String × String))
    (hacl : dGetD (dGetD cat.acls s []) o [] = [])
    (hroles : dGetD cat.userRoles s [] = [])
    (hrel : relationshipKinds cat s o = [])
    (hpreds : ∀ p ∈ preds, evalCond cat s o a env p = false)
    (hrules : ∀ r ∈ rules, evalCond cat s o a env r.cond = false) :
    check_acl cat s o a = false ∧
    check_rbac cat s o a = false ∧
    check_abac cat preds s o a env = false ∧
    check_rebac cat s o a = false ∧
    check_pbac cat rules s o a env = false := by
  refine ⟨?_, ?_, ?_, ?_, ?_⟩
  · simp [check_acl, hacl]
  · simp [check_rbac, hroles, rbacLoop]
  · simp only [check_abac, List.any_eq_false]
    intro p hp
    simp [hpreds p hp]
  · simp [check_rebac, hrel]
  · unfold check_pbac
    cases hfind : rules.find? (fun r => evalCond cat s o a env r.cond) with
    | none => rfl
    | some r =>
      have h1 := List.find?_some hfind
      have h2 := List.mem_of_find?_eq_some hfind
      rw [hrules r h2] at h1
      cases h1

theorem fail_closed_all_models_witness :
    (dGetD (dGetD fixtureCatalog.acls 99 []) 99 [] = [] ∧
     dGetD fixtureCatalog.userRoles 99 [] = [] ∧
     relationshipKinds fixtureCatalog 99 99 = [] ∧
     (∀ p ∈ ([] : List AttrCond), evalCond fixtureCatalog 99 99 "read" [] p = false) ∧
     (∀ r ∈ ([] : List PolicyRule),
        evalCond fixtureCatalog 99 99 "read" [] r.cond = false)) ∧
    (check_acl fixtureCatalog 99 99 "read" = false ∧
     check_rbac fixtureCatalog 99 99 "read" = false ∧
     check_abac fixtureCatalog [] 99 99 "read" [] = false ∧
     check_rebac fixtureCatalog 99 99 "read" = false ∧
     check_pbac fixtureCatalog [] 99 99 "read" [] = false) :=
  ⟨⟨by decide, by decide, by decide, by simp, by simp⟩,
   fail_closed_all_models fixtureCatalog [] [] 99 99 "read" []
     (by decide) (by decide) (by decide) (by simp) (by simp)⟩

/-- Claim C4: for every recognized model the engine's decision has the same
normalized shape — the model field names the selected model, and the decision
is either an allow or carries a nonempty informational reason; no model
yields an empty or missing result. -/
theorem decision_shape_normalized (cat : Catalog) (preds : List AttrCond)
    (rules : List PolicyRule) (m : Model) (s o : Int) (a : String)
    (env : List (String × String)) :
    (Engine.decide cat preds rules m s o a env).model = m.name ∧
    ((Engine.decide cat preds rules m s o a env).allowed = true ∨
      (Engine.decide cat preds rules m s o a env).reason ≠ "") := by
  cases m <;> simp only [Engine.decide, Model.name] <;> split <;> simp

/-- Claim C5 (code bug): the endpoints parse the credential with the
unguarded `int(authorization.split(" ")[1])`; a header with no second token
or a non-integer second token has no parse (Python raises) and evaluation is
reached as a crash, not as a structured MissingCredential result. -/
theorem malformed_credential_crashes :
    parse_user_id "Bearer" = none ∧
    parse_user_id "Bearer abc" = none ∧
    read_document fixtureCatalog 1 "acl" (some "Bearer") = ApiResponse.crash ∧
    create_document fixtureCatalog 1 "acl" (some "Bearer abc") = ApiResponse.crash ∧
    update_document fixtureCatalog 1 "rbac" (some "Bearer") = ApiResponse.crash ∧
    delete_document fixtureCatalog 1 "pbac" (some "token") = ApiResponse.crash :=
  ⟨by decide, by decide, by decide, by decide, by decide, by decide⟩

/-- Claim C6: on the reference fixtures, subject 1 writing document 2 is
denied under ACL and allowed under RBAC (admin grants read and write on all
three sample documents), and subject 3 writing document 1 is denied under
RBAC (viewer grants read only). -/
theorem fixture_scenarios :
    check_acl fixtureCatalog 1 2 "write" = false ∧
    check_rbac fixtureCatalog 1 2 "write" = true ∧
    check_rbac fixtureCatalog 3 1 "write" = false ∧
    (∀ d ∈ ([1, 2, 3] : List Int),
      "read" ∈ dGetD (dGetD fixtureCatalog.rolePermissions "admin" []) d [] ∧
      "write" ∈ dGetD (dGetD fixtureCatalog.rolePermissions "admin" []) d []) ∧
    "write" ∉ dGetD (dGetD fixtureCatalog.rolePermissions "viewer" []) 1 [] := by
  decide

/-- Claim C7: RBAC OR-monotonicity — appending one more role to a subject's
role list, with the role and permission tables unchanged, never turns
`check_rbac` from true to false. -/
theorem rbac_role_extension_monotone (cat cat' : Catalog) (s o : Int)
    (a : String) (r : Int)
    (hu : dGetD cat'.userRoles s [] = dGetD cat.userRoles s [] ++ [r])
    (hR : cat'.roles = cat.roles) (hP : cat'.rolePermissions = cat.rolePermissions)
    (h : check_rbac cat s o a = true) : check_rbac cat' s o a = true := by
  unfold check_rbac at h ⊢
  rw [hu, hR, hP]
  exact rbacLoop_append_true cat.roles cat.rolePermissions o a _ [r] h

theorem rbac_role_extension_monotone_witness :
    (dGetD fixtureCatalogExtraRole.userRoles 3 [] =
        dGetD fixtureCatalog.userRoles 3 [] ++ [1] ∧
     fixtureCatalogExtraRole.roles = fixtureCatalog.roles ∧
     fixtureCatalogExtraRole.rolePermissions = fixtureCatalog.rolePermissions ∧
     check_rbac fixtureCatalog 3 1 "read" = true) ∧
    check_rbac fixtureCatalogExtraRole 3 1 "read" = true :=
  ⟨⟨by decide, rfl, rfl, by decide⟩,
   rbac_role_extension_monotone fixtureCatalog fixtureCatalogExtraRole 3 1 "read" 1
     (by decide) rfl rfl (by decide)⟩

/-- Claim C8: every endpoint rejects an unrecognized model selector with the
invalid-method error whose suggestion carries the five valid identifiers,
and no evaluator runs (the result is the guard's error value). -/
theorem unsupported_model_rejected (cat : Catalog) (id : Int) (m : String)
    (auth : Option String) (hm : m ∉ AUTHZ_METHODS) :
    create_document cat id m auth =
      ApiResponse.error "Invalid authorization method" methodSuggestion ∧
    read_document cat id m auth =
      ApiResponse.error "Invalid authorization method" methodSuggestion ∧
    update_document cat id m auth =
      ApiResponse.error "Invalid authorization method" methodSuggestion ∧
    delete_document cat id m auth =
      ApiResponse.error "Invalid authorization method" methodSuggestion ∧
    methodSuggestion = "Choose from: " ++ String.intercalate ", " AUTHZ_METHODS := by
  refine ⟨?_, ?_, ?_, ?_, rfl⟩ <;>
    simp [create_document, read_document, update_document, delete_document, hm]

theorem unsupported_model_rejected_witness :
    ("xyzzy" ∉ AUTHZ_METHODS) ∧
    (create_document fixtureCatalog 1 "xyzzy" (some "Bearer 1") =
       ApiResponse.error "Invalid authorization method" methodSuggestion ∧
     read_document fixtureCatalog 1 "xyzzy" (some "Bearer 1") =
       ApiResponse.error "Invalid authorization method" methodSuggestion ∧
     update_document fixtureCatalog 1 "xyzzy" (some "Bearer 1") =
       ApiResponse.error "Invalid authorization method" methodSuggestion ∧
     delete_document fixtureCatalog 1 "xyzzy" (some "Bearer 1") =
       ApiResponse.error "Invalid authorization method" methodSuggestion ∧
     methodSuggestion = "Choose from: " ++ String.intercalate ", " AUTHZ_METHODS) :=
  ⟨by decide,
   unsupported_model_rejected fixtureCatalog 1 "xyzzy" (some "Bearer 1") (by decide)⟩

/-- Claim C9: with a recognized model and no Authorization header, every
endpoint returns the missing-credential error before any evaluation. -/
theorem missing_credential_rejected (cat : Catalog) (id : Int) (m : String)
    (hm : m ∈ AUTHZ_METHODS) :
    create_document cat id m none =
      ApiResponse.error "Authorization header missing" "Provide a valid authorization token" ∧
    read_document cat id m none =
      ApiResponse.error "Authorization header missing" "Provide a valid authorization token" ∧
    update_document cat id m none =
      ApiResponse.error "Authorization header missing" "Provide a valid authorization token" ∧
    delete_document cat id m none =
      ApiResponse.error "Authorization header missing" "Provide a valid authorization token" := by
  refine ⟨?_, ?_, ?_, ?_⟩ <;>
    simp [create_document, read_document, update_document, delete_document, hm]

theorem missing_credential_rejected_witness :
    ("acl" ∈ AUTHZ_METHODS) ∧
    (create_document fixtureCatalog 1 "acl" none =
       ApiResponse.error "Authorization header missing" "Provide a valid authorization token" ∧
     read_document fixtureCatalog 1 "acl" none =
       ApiResponse.error "Authorization header missing" "Provide a valid authorization token" ∧
     update_document fixtureCatalog 1 "acl" none =
       ApiResponse.error "Authorization header missing" "Provide a valid authorization token" ∧
     delete_document fixtureCatalog 1 "acl" none =
       ApiResponse.error "Authorization header missing" "Provide a valid authorization token") :=
  ⟨by decide, missing_credential_rejected fixtureCatalog 1 "acl" (by decide)⟩

/-- Claim C10: the write endpoints perform no authorization check — with a
recognized model and a parsable credential they return a success message,
identical across any two catalogs, document ids and subjects; only the GET
endpoint consults an evaluator (its result does depend on the subject). -/
theorem write_endpoints_no_authz (cat cat' : Catalog) (id id' : Int)
    (m : String) (auth auth' : String) (uid uid' : Int)
    (hm : m ∈ AUTHZ_METHODS)
    (h1 : parse_user_id auth = some uid) (h2 : parse_user_id auth' = some uid') :
    (∃ msg, create_document cat id m (some auth) = ApiResponse.message msg) ∧
    create_document cat id m (some auth) = create_document cat' id' m (some auth') ∧
    (∃ msg, update_document cat id m (some auth) = ApiResponse.message msg) ∧
    update_document cat id m (some auth) = update_document cat' id' m (some auth') ∧
    (∃ msg, delete_document cat id m (some auth) = ApiResponse.message msg) ∧
    delete_document cat id m (some auth) = delete_document cat' id' m (some auth') ∧
    read_document fixtureCatalog 2 "acl" (some "Bearer 1") ≠
      read_document fixtureCatalog 2 "acl" (some "Bearer 3") := by
  have hm' : m = "acl" ∨ m = "rbac" ∨ m = "abac" ∨ m = "rebac" ∨ m = "pbac" := by
    simpa [AUTHZ_METHODS] using hm
  rcases hm' with h | h | h | h | h <;> subst h <;>
    refine ⟨?_, ?_, ?_, ?_, ?_, ?_, by decide⟩ <;>
    simp [create_document, update_document, delete_document, AUTHZ_METHODS, h1, h2]

theorem write_endpoints_no_authz_witness :
    (("acl" : String) ∈ AUTHZ_METHODS ∧
     parse_user_id "Bearer 1" = some 1 ∧ parse_user_id "Bearer 2" = some 2) ∧
    ((∃ msg, create_document fixtureCatalog 1 "acl" (some "Bearer 1") =
        ApiResponse.message msg) ∧
     create_document fixtureCatalog 1 "acl" (some "Bearer 1") =
       create_document fixtureCatalogExtraRole 2 "acl" (some "Bearer 2") ∧
     (∃ msg, update_document fixtureCatalog 1 "acl" (some "Bearer 1") =
        ApiResponse.message msg) ∧
     update_document fixtureCatalog 1 "acl" (some "Bearer 1") =
       update_document fixtureCatalogExtraRole 2 "acl" (some "Bearer 2") ∧
     (∃ msg, delete_document fixtureCatalog 1 "acl" (some "Bearer 1") =
        ApiResponse.message msg) ∧
     delete_document fixtureCatalog 1 "acl" (some "Bearer 1") =
       delete_document fixtureCatalogExtraRole 2 "acl" (some "Bearer 2") ∧
     read_document fixtureCatalog 2 "acl" (some "Bearer 1") ≠
       read_document fixtureCatalog 2 "acl" (some "Bearer 3")) :=
  ⟨⟨by decide, by decide, by decide⟩,
   write_endpoints_no_authz fixtureCatalog fixtureCatalogExtraRole 1 2 "acl"
     "Bearer 1" "Bearer 2" 1 2 (by decide) (by decide) (by decide)⟩
